import Mathlib

/-!
# csi-driver-sealfs: the `Cli` capability set (`pkg/sealfs/sealfscli.go`, `pkg/sealfs/fakecli.go`)

A shallow embedding of the two implementations of the `Cli` interface,
`SealfsCli` (runs the external `sealfs-client` program) and `fakeCli`
(validation only), and theorems about them.

Modelling choices.

* The operating system is a parameter: `Env` fixes, for the duration of one
  operation, what `os.MkdirAll`, `os.RemoveAll` and
  `exec.Command(..).CombinedOutput()` answer.  Theorems quantify over every `Env`.
* `World` is the state the operations act on: the directories that exist
  (changed only by the `os` calls of this program; what the external client
  does to the file system is outside the model) and the ordered trace of
  external calls made so far.
* A Go `error` is `Option GoError` (`none` is `nil`).  `GoError.code` is what
  `status.Code` of grpc reports for it.
* `command.ProcessState` is a pointer; calling `Success()` through a nil
  pointer is a run-time panic, kept as the outcome `Ret.panicked`.
* `Env` may give any answer. What `os/exec` really guarantees, that a failed
  wait leaves `command.ProcessState` nil, is the predicate
  `ExecResult.fromOsExec`, assumed only where a statement says so.
* `klog` calls only write to the process log and are left out.
-/

namespace Sealfs

/-! ## Errors -/

/-- The grpc status codes that matter here. -/
inductive Code
  | OK
  | InvalidArgument
  | Unknown
deriving DecidableEq, Repr

/-- The state of an exited process (`os.ProcessState`): `success` is what
`Success()` reports and `str` what `String()` prints, e.g. `exit status 1`. -/
structure ProcessState where
  success : Bool
  str : String
deriving DecidableEq, Repr

/-- The non-nil error values the two files build or pass on. -/
inductive GoError
  /-- Built by `status.Error(code, msg)`. -/
  | status (code : Code) (msg : String)
  /-- Built by `fmt.Errorf(..)` without `%w`: a plain error carrying the formatted text. -/
  | errorf (text : String)
  /-- the error value `CombinedOutput` returned, with its text -/
  | cmdErr (text : String)
  /-- The value `&exec.ExitError{ProcessState: ps}`. -/
  | exitError (ps : ProcessState)
deriving DecidableEq, Repr

/-- The text `err.Error()` gives. -/
def GoError.Error : GoError → String
  | .status c msg =>
      "rpc error: code = " ++
        (match c with
          | .OK => "OK"
          | .InvalidArgument => "InvalidArgument"
          | .Unknown => "Unknown") ++ " desc = " ++ msg
  | .errorf text => text
  | .cmdErr text => text
  | .exitError ps => ps.str

/-- The category `status.Code(err)` reports for a non-nil error: the code of a
status error, `Unknown` for every other error. -/
def GoError.code : GoError → Code
  | .status c _ => c
  | _ => Code.Unknown

/-- Outcome of a Go function call: it returns a value or panics. -/
inductive Ret (α : Type)
  | returned (a : α)
  | panicked
deriving DecidableEq, Repr

/-! ## The environment -/

/-- One external call made by the program. -/
inductive Event
  /-- A call `os.MkdirAll(path, perm)`. -/
  | mkdirAll (path : String) (perm : Nat)
  /-- A call `exec.Command(name, args...).CombinedOutput()`. -/
  | combinedOutput (name : String) (args : List String)
  /-- A call `os.RemoveAll(path)`. -/
  | removeAll (path : String)
deriving DecidableEq, Repr

/-- The state operations act on: `dirs` lists the directories that exist,
`trace` the external calls made so far, oldest first. -/
structure World where
  dirs : List String
  trace : List Event
deriving DecidableEq, Repr

/-- What `CombinedOutput` hands back: the captured output, the text of the
error (`none` for a nil error) and `command.ProcessState` afterwards. -/
structure ExecResult where
  output : String
  err : Option String
  processState : Option ProcessState
deriving DecidableEq, Repr

/-- The answers of the operating system during one operation.
`mkdirAll path perm` is `none` when the call succeeds, else the error text and
how many of the missing ancestors were made before it failed.
`removeAll path` is `none` when the call succeeds, else the error text and
which entries below `path` could not be removed. -/
structure Env where
  mkdirAll : String → Nat → Option (String × Nat)
  combinedOutput : String → List String → ExecResult
  removeAll : String → Option (String × (String → Bool))

/-- The proper ancestors of a path: every non-empty part of it that ends just
before a `/`. -/
def parents (path : String) : List String :=
  ((List.range path.length).filter
      (fun i => decide (0 < i) && (path.data.get? i == some '/'))).map
    (fun i => String.mk (path.data.take i))

/-- The pieces of a path between its `/` characters. -/
def splitSlash : List Char → List String
  | [] => [""]
  | c :: cs =>
      if c = '/' then "" :: splitSlash cs
      else
        match splitSlash cs with
        | [] => [String.mk [c]]
        | s :: rest => String.mk (c :: s.data) :: rest

/-- One step of resolving a path: `acc` holds the components so far, innermost
first; an empty piece and `.` change nothing, `..` goes up one level. -/
def resolveStep (rooted : Bool) (acc : List String) (c : String) : List String :=
  if c = "" ∨ c = "." then acc
  else if c = ".." then
    match acc with
    | [] => if rooted then [] else [".."]
    | top :: rest => if top = ".." then ".." :: acc else rest
  else c :: acc

/-- The place a path names, resolved by its text alone (no symbolic links):
whether it starts at the root, and its components, outermost first. So
`/mnt/x`, `/mnt/x/` and `/mnt//./x` name the same place. -/
def place (path : String) : Bool × List String :=
  let rooted := path.data.head? == some '/'
  (rooted, ((splitSlash path.data).foldl (resolveStep rooted) []).reverse)

/-- Whether `d` names the place `path` names or a place below it. -/
def below (path d : String) : Bool :=
  (place path).1 == (place d).1 && (place path).2.isPrefixOf (place d).2

/-- The call `os.MkdirAll(path, perm)`: on success `path` and its ancestors exist. -/
def osMkdirAll (env : Env) (path : String) (perm : Nat) (w : World) :
    Option String × World :=
  let tr := w.trace ++ [Event.mkdirAll path perm]
  match env.mkdirAll path perm with
  | none => (none, { dirs := path :: (parents path ++ w.dirs), trace := tr })
  | some (e, n) => (some e, { dirs := (parents path).take n ++ w.dirs, trace := tr })

/-- The call `os.RemoveAll(path)`: on success nothing at or below `path` exists; on
failure what could be removed is gone. -/
def osRemoveAll (env : Env) (path : String) (w : World) : Option String × World :=
  let tr := w.trace ++ [Event.removeAll path]
  match env.removeAll path with
  | none => (none, { dirs := w.dirs.filter (fun d => !below path d), trace := tr })
  | some (e, kept) =>
      (some e, { dirs := w.dirs.filter (fun d => !below path d || kept d), trace := tr })

/-- The call `exec.Command(name, args...).CombinedOutput()`. -/
def execCombinedOutput (env : Env) (name : String) (args : List String) (w : World) :
    ExecResult × World :=
  (env.combinedOutput name args,
    { dirs := w.dirs, trace := w.trace ++ [Event.combinedOutput name args] })

/-! ## The volume record -/

/-- Modelled from the spec: the declaration of `sealfsVolume` is not among the
sources; these are the four fields the `Create` functions set, which are the
fields of the Volume of the data model (§3). `size` is an `int64`. -/
structure sealfsVolume where
  id : String
  size : Int
  uuid : String
  onDelete : String
deriving DecidableEq, Repr

/-! ## `sealfscli.go` -/

/-- The loop `for _, arg := range sealfsArgs { s = s + " " + arg }` from `""`. -/
def argsLogStr (sealfsArgs : List String) : String :=
  sealfsArgs.foldl (fun s arg => s ++ " " ++ arg) ""

/-- Method `(*SealfsCli).Mount`. -/
def SealfsCli.Mount (env : Env) (volumeName mountPath : String) (_options : List String)
    (w : World) : Ret (Option GoError) × World :=
  if volumeName = "" then
    (.returned (some (.status .InvalidArgument "Volume ID missing in request")), w)
  else if mountPath = "" then
    (.returned (some (.status .InvalidArgument "Target path not provided")), w)
  else
    match osMkdirAll env mountPath 0o750 w with
    | (some e, w1) =>
        (.returned (some (.errorf ("failed to create mount path " ++ mountPath ++ ": " ++ e))), w1)
    | (none, w1) =>
        let sealfsCmd := "sealfs-client"
        let sealfsArgs := ["--log-level", "warn", "mount", mountPath, volumeName]
        let mountArgsLogStr := argsLogStr sealfsArgs
        let fail (err : GoError) (output : String) : GoError :=
          .errorf ("mount failed: " ++ err.Error ++ "\nMounting command: " ++ sealfsCmd
            ++ "\nMounting arguments: " ++ mountArgsLogStr ++ "\nOutput: " ++ output)
        match execCombinedOutput env sealfsCmd sealfsArgs w1 with
        | (r, w2) =>
            match r.err with
            | some text =>
                if text = "wait: no child processes" then
                  match r.processState with
                  | none => (.panicked, w2)
                  | some ps =>
                      if ps.success then (.returned none, w2)
                      else (.returned (some (fail (.exitError ps) r.output)), w2)
                else (.returned (some (fail (.cmdErr text) r.output)), w2)
            | none => (.returned none, w2)

/-- Method `(*SealfsCli).Umount`. -/
def SealfsCli.Umount (env : Env) (mountPath : String) (w : World) :
    Ret (Option GoError) × World :=
  if mountPath = "" then
    (.returned (some (.status .InvalidArgument "Target path not provided")), w)
  else
    let sealfsCmd := "sealfs-client"
    let sealfsArgs := ["--log-level", "warn", "umount", mountPath]
    let mountArgsLogStr := argsLogStr sealfsArgs
    let fail (err : GoError) (output : String) : GoError :=
      .errorf ("Umount failed: " ++ err.Error ++ "\nUmounting command: " ++ sealfsCmd
        ++ "\nUmounting arguments: " ++ mountArgsLogStr ++ "\nOutput: " ++ output)
    let rmrf (w2 : World) : Ret (Option GoError) × World :=
      match osRemoveAll env mountPath w2 with
      | (some e, w3) =>
          (.returned (some (.errorf ("failed to remove mount path " ++ mountPath ++ ": " ++ e))), w3)
      | (none, w3) => (.returned none, w3)
    match execCombinedOutput env sealfsCmd sealfsArgs w with
    | (r, w2) =>
        match r.err with
        | some text =>
            if text = "wait: no child processes" then
              match r.processState with
              | none => (.panicked, w2)
              | some ps =>
                  if ps.success then (.returned none, w2)
                  else (.returned (some (fail (.exitError ps) r.output)), w2)
            else (.returned (some (fail (.cmdErr text) r.output)), w2)
        | none => rmrf w2

/-- Method `(*SealfsCli).Create`: the pair is `(*sealfsVolume, error)`. -/
def SealfsCli.Create (env : Env) (volumeName server : String) (size : Int)
    (onDeletePolicy : String) (w : World) :
    Ret (Option sealfsVolume × Option GoError) × World :=
  let sealfsCmd := "sealfs-client"
  let sealfsArgs := ["--log-level", "warn", "create", "-m", server, volumeName, "100000"]
  let mountArgsLogStr := argsLogStr sealfsArgs
  let fail (err : GoError) (output : String) : GoError :=
    .errorf ("mount failed: " ++ err.Error ++ "\nMounting command: " ++ sealfsCmd
      ++ "\nMounting arguments: " ++ mountArgsLogStr ++ "\nOutput: " ++ output)
  let volume : sealfsVolume :=
    { id := volumeName, size := size, uuid := volumeName, onDelete := onDeletePolicy }
  match execCombinedOutput env sealfsCmd sealfsArgs w with
  | (r, w2) =>
      match r.err with
      | some text =>
          if text ≠ "wait: no child processes" then
            (.returned (none, some (fail (.cmdErr text) r.output)), w2)
          else
            match r.processState with
            | none => (.panicked, w2)
            | some ps =>
                if !ps.success then
                  (.returned (none, some (fail (.exitError ps) r.output)), w2)
                else
                  -- the second `if err != nil`, with `err` still the wait error
                  (.returned (none, some (.errorf ("failed to create volume " ++ volumeName
                    ++ ": " ++ (GoError.cmdErr text).Error))), w2)
      | none => (.returned (some volume, none), w2)

/-- Method `(*SealfsCli).Delete`. -/
def SealfsCli.Delete (name : String) (w : World) : Ret (Option GoError) × World :=
  if name = "" then (.returned (some (.errorf "missing required volume name")), w)
  else (.returned none, w)

/-- Method `(*SealfsCli).Probe`. -/
def SealfsCli.Probe (env : Env) (w : World) : Ret (Option GoError) × World :=
  let sealfsCmd := "sealfs-client"
  let sealfsArgs := ["--log-level", "warn", "probe"]
  match execCombinedOutput env sealfsCmd sealfsArgs w with
  | (r, w2) =>
      match r.err with
      | some text =>
          if text ≠ "wait: no child processes" then (.returned (some (.cmdErr text)), w2)
          else
            match r.processState with
            | none => (.panicked, w2)
            | some ps =>
                if !ps.success then (.returned (some (.exitError ps)), w2)
                else (.returned none, w2)
      | none => (.returned none, w2)

/-! ## `fakecli.go` -/

/-- Method `(*fakeCli).Mount`. -/
def fakeCli.Mount (volumeName mountPath : String) (_options : List String) (w : World) :
    Ret (Option GoError) × World :=
  if volumeName = "" then
    (.returned (some (.status .InvalidArgument "Volume ID missing in request")), w)
  else if mountPath = "" then
    (.returned (some (.status .InvalidArgument "Target path not provided")), w)
  else (.returned none, w)

/-- Method `(*fakeCli).Umount`. -/
def fakeCli.Umount (mountPath : String) (w : World) : Ret (Option GoError) × World :=
  if mountPath = "" then
    (.returned (some (.status .InvalidArgument "Target path not provided")), w)
  else (.returned none, w)

/-- Method `(*fakeCli).Create`. -/
def fakeCli.Create (volumeName _server : String) (size : Int) (onDeletePolicy : String)
    (w : World) : Ret (Option sealfsVolume × Option GoError) × World :=
  (.returned
    (some { id := volumeName, size := size, uuid := volumeName, onDelete := onDeletePolicy },
      none), w)

/-- Method `(*fakeCli).Delete`. -/
def fakeCli.Delete (name : String) (w : World) : Ret (Option GoError) × World :=
  if name = "" then (.returned (some (.errorf "missing required volume name")), w)
  else (.returned none, w)

/-- Method `(*fakeCli).Probe`. -/
def fakeCli.Probe (w : World) : Ret (Option GoError) × World :=
  (.returned none, w)

/-! ## Vocabulary of the statements -/

/-- The subprocess invocations recorded in a trace, in order. -/
def commands : List Event → List (String × List String)
  | [] => []
  | Event.combinedOutput name args :: rest => (name, args) :: commands rest
  | _ :: rest => commands rest

/-- The text `s` contains the text `t`. -/
def hasSub (s t : String) : Prop := t.data <:+: s.data

instance (s t : String) : Decidable (hasSub s t) :=
  inferInstanceAs (Decidable (t.data <:+: s.data))

/-- The subprocess call failed, the quirk taken into account: it reported an
error that is not `wait: no child processes` (then `shown` is that error), or
it reported that text while the captured process state reports failure (then
`shown` is the exit error of that state). -/
def ExecResult.failsWith (r : ExecResult) (shown : GoError) : Prop :=
  ∃ text, r.err = some text ∧
    ((text ≠ "wait: no child processes" ∧ shown = GoError.cmdErr text) ∨
      (text = "wait: no child processes" ∧
        ∃ ps, r.processState = some ps ∧ ps.success = false ∧ shown = GoError.exitError ps))

/-- What `os/exec` guarantees about an answer of `CombinedOutput`: the error
`wait: no child processes` is the wait system call failing, and then no process
state was captured (`command.ProcessState` stays nil). -/
def ExecResult.fromOsExec (r : ExecResult) : Prop :=
  r.err = some "wait: no child processes" → r.processState = none

/-- An environment whose `os` calls succeed and in which every command gives `r`. -/
def constEnv (r : ExecResult) : Env :=
  { mkdirAll := fun _ _ => none
    combinedOutput := fun _ _ => r
    removeAll := fun _ => none }

/-- The command exits with status 0 and nothing goes wrong. -/
def okResult : ExecResult :=
  { output := "", err := none, processState := some { success := true, str := "exit status 0" } }

/-- The command ran, but reaping it failed with `ECHILD`: `CombinedOutput`
returns the error `wait: no child processes` and `command.ProcessState` is nil. -/
def waitLostResult (output : String) : ExecResult :=
  { output := output, err := some "wait: no child processes", processState := none }

/-- The command exits with status 1. -/
def exit1Result (output : String) : ExecResult :=
  { output := output
    err := some "exit status 1"
    processState := some { success := false, str := "exit status 1" } }

/-- An environment in which `os.MkdirAll` fails. -/
def noMkdirEnv : Env :=
  { mkdirAll := fun _ _ => some ("permission denied", 0)
    combinedOutput := fun _ _ => okResult
    removeAll := fun _ => none }

/-- A world with no directory and no call made. -/
def emptyWorld : World := { dirs := [], trace := [] }

/-! ## Theorems -/

theorem commands_append (xs ys : List Event) :
    commands (xs ++ ys) = commands xs ++ commands ys := by
  induction xs with
  | nil => rfl
  | cons x xs ih => cases x <;> simp [commands, ih]

theorem Mount_world_of_mkdirAll_ok (env : Env) (volumeName mountPath : String)
    (options : List String) (w : World) (hv : volumeName ≠ "") (hp : mountPath ≠ "")
    (hm : env.mkdirAll mountPath 0o750 = none) :
    (SealfsCli.Mount env volumeName mountPath options w).2
      = { dirs := mountPath :: (parents mountPath ++ w.dirs),
          trace := w.trace ++ [Event.mkdirAll mountPath 0o750,
            Event.combinedOutput "sealfs-client"
              ["--log-level", "warn", "mount", mountPath, volumeName]] } := by
  simp only [SealfsCli.Mount, hv, hp, if_false, osMkdirAll, execCombinedOutput, hm]
  repeat' split
  all_goals simp

theorem Umount_world_of_err (env : Env) (mountPath : String) (w : World)
    (hp : mountPath ≠ "") (text : String)
    (he : (env.combinedOutput "sealfs-client" ["--log-level", "warn", "umount", mountPath]).err
      = some text) :
    (SealfsCli.Umount env mountPath w).2
      = { dirs := w.dirs,
          trace := w.trace ++ [Event.combinedOutput "sealfs-client"
              ["--log-level", "warn", "umount", mountPath]] } := by
  simp only [SealfsCli.Umount, hp, if_false, execCombinedOutput, he]
  repeat' split
  all_goals simp

theorem Umount_world_of_ok (env : Env) (mountPath : String) (w : World)
    (hp : mountPath ≠ "")
    (he : (env.combinedOutput "sealfs-client" ["--log-level", "warn", "umount", mountPath]).err
      = none) :
    (SealfsCli.Umount env mountPath w).2
      = (osRemoveAll env mountPath ⟨w.dirs, w.trace ++ [Event.combinedOutput "sealfs-client"
              ["--log-level", "warn", "umount", mountPath]]⟩).2 := by
  simp only [SealfsCli.Umount, hp, if_false, execCombinedOutput, he]
  repeat' split
  all_goals simp_all

theorem Create_world (env : Env) (volumeName server : String) (size : Int)
    (onDeletePolicy : String) (w : World) :
    (SealfsCli.Create env volumeName server size onDeletePolicy w).2
      = { dirs := w.dirs,
          trace := w.trace ++ [Event.combinedOutput "sealfs-client"
              ["--log-level", "warn", "create", "-m", server, volumeName, "100000"]] } := by
  simp only [SealfsCli.Create, execCombinedOutput]
  repeat' split
  all_goals simp

theorem Probe_world (env : Env) (w : World) :
    (SealfsCli.Probe env w).2
      = { dirs := w.dirs,
          trace := w.trace ++ [Event.combinedOutput "sealfs-client"
              ["--log-level", "warn", "probe"]] } := by
  simp only [SealfsCli.Probe, execCombinedOutput]
  repeat' split
  all_goals simp

theorem below_self (path : String) : below path path = true := by
  simp [below]

theorem Umount_world_of_nil (env : Env) (mountPath : String) (w : World)
    (hreal : (env.combinedOutput "sealfs-client"
      ["--log-level", "warn", "umount", mountPath]).fromOsExec)
    (hret : (SealfsCli.Umount env mountPath w).1 = .returned none) :
    (SealfsCli.Umount env mountPath w).2
      = { dirs := w.dirs.filter (fun d => !below mountPath d),
          trace := w.trace ++ [Event.combinedOutput "sealfs-client"
            ["--log-level", "warn", "umount", mountPath], Event.removeAll mountPath] } := by
  by_cases hp : mountPath = ""
  · simp [SealfsCli.Umount, hp] at hret
  cases he : (env.combinedOutput "sealfs-client"
      ["--log-level", "warn", "umount", mountPath]).err with
  | some text =>
      by_cases hq : text = "wait: no child processes"
      · have hn := hreal (by rw [he, hq])
        simp [SealfsCli.Umount, hp, execCombinedOutput, he, hq, hn] at hret
      · simp [SealfsCli.Umount, hp, execCombinedOutput, he, hq] at hret
  | none =>
      cases hr : env.removeAll mountPath with
      | none => simp [SealfsCli.Umount, hp, execCombinedOutput, he, osRemoveAll, hr]
      | some ek => simp [SealfsCli.Umount, hp, execCombinedOutput, he, osRemoveAll, hr] at hret

theorem hasSub_refl (s : String) : hasSub s s := List.infix_refl _

theorem hasSub_left {s t : String} (u : String) (h : hasSub s t) : hasSub (s ++ u) t := by
  obtain ⟨a, b, hab⟩ := h
  exact ⟨a, b ++ u.data, by simp [← hab]⟩

theorem hasSub_right {s t : String} (u : String) (h : hasSub s t) : hasSub (u ++ s) t := by
  obtain ⟨a, b, hab⟩ := h
  exact ⟨u.data ++ a, b, by simp [← hab]⟩

theorem hasSub_foldl (t : String) (args : List String) :
    ∀ init : String, hasSub init t ∨ t ∈ args →
      hasSub (args.foldl (fun s arg => s ++ " " ++ arg) init) t := by
  induction args with
  | nil =>
      intro init h
      simpa using h
  | cons a rest ih =>
      intro init h
      simp only [List.foldl_cons]
      apply ih
      rcases h with h | h
      · exact Or.inl (hasSub_left _ (hasSub_left _ h))
      · rcases List.mem_cons.mp h with rfl | h
        · exact Or.inl (hasSub_right _ (hasSub_refl _))
        · exact Or.inr h

theorem hasSub_argsLogStr {t : String} {args : List String} (h : t ∈ args) :
    hasSub (argsLogStr args) t :=
  hasSub_foldl t args "" (Or.inr h)

theorem Mount_of_failsWith (env : Env) (volumeName mountPath : String)
    (options : List String) (w : World) (shown : GoError)
    (hv : volumeName ≠ "") (hp : mountPath ≠ "") (hm : env.mkdirAll mountPath 0o750 = none)
    (hf : (env.combinedOutput "sealfs-client"
      ["--log-level", "warn", "mount", mountPath, volumeName]).failsWith shown) :
    (SealfsCli.Mount env volumeName mountPath options w).1
      = .returned (some (.errorf ("mount failed: " ++ shown.Error
          ++ "\nMounting command: sealfs-client\nMounting arguments: "
          ++ argsLogStr ["--log-level", "warn", "mount", mountPath, volumeName]
          ++ "\nOutput: "
          ++ (env.combinedOutput "sealfs-client"
              ["--log-level", "warn", "mount", mountPath, volumeName]).output))) := by
  obtain ⟨text, he, ⟨hne, rfl⟩ | ⟨heq, ps, hps, hs, rfl⟩⟩ := hf
  · simp [SealfsCli.Mount, hv, hp, osMkdirAll, hm, execCombinedOutput, he, hne,
      String.append_assoc]
  · simp [SealfsCli.Mount, hv, hp, osMkdirAll, hm, execCombinedOutput, he, heq, hps, hs,
      String.append_assoc]

theorem Umount_of_failsWith (env : Env) (mountPath : String) (w : World) (shown : GoError)
    (hp : mountPath ≠ "")
    (hf : (env.combinedOutput "sealfs-client"
      ["--log-level", "warn", "umount", mountPath]).failsWith shown) :
    (SealfsCli.Umount env mountPath w).1
      = .returned (some (.errorf ("Umount failed: " ++ shown.Error
          ++ "\nUmounting command: sealfs-client\nUmounting arguments: "
          ++ argsLogStr ["--log-level", "warn", "umount", mountPath]
          ++ "\nOutput: "
          ++ (env.combinedOutput "sealfs-client"
              ["--log-level", "warn", "umount", mountPath]).output))) := by
  obtain ⟨text, he, ⟨hne, rfl⟩ | ⟨heq, ps, hps, hs, rfl⟩⟩ := hf
  · simp [SealfsCli.Umount, hp, execCombinedOutput, he, hne, String.append_assoc]
  · simp [SealfsCli.Umount, hp, execCombinedOutput, he, heq, hps, hs, String.append_assoc]

theorem Create_of_failsWith (env : Env) (volumeName server : String) (size : Int)
    (onDeletePolicy : String) (w : World) (shown : GoError)
    (hf : (env.combinedOutput "sealfs-client"
      ["--log-level", "warn", "create", "-m", server, volumeName, "100000"]).failsWith shown) :
    (SealfsCli.Create env volumeName server size onDeletePolicy w).1
      = .returned (none, some (.errorf ("mount failed: " ++ shown.Error
          ++ "\nMounting command: sealfs-client\nMounting arguments: "
          ++ argsLogStr ["--log-level", "warn", "create", "-m", server, volumeName, "100000"]
          ++ "\nOutput: "
          ++ (env.combinedOutput "sealfs-client"
              ["--log-level", "warn", "create", "-m", server, volumeName,
                "100000"]).output))) := by
  obtain ⟨text, he, ⟨hne, rfl⟩ | ⟨heq, ps, hps, hs, rfl⟩⟩ := hf
  · simp [SealfsCli.Create, execCombinedOutput, he, hne, String.append_assoc]
  · simp [SealfsCli.Create, execCombinedOutput, he, heq, hps, hs, String.append_assoc]

theorem Probe_of_failsWith (env : Env) (w : World) (shown : GoError)
    (hf : (env.combinedOutput "sealfs-client" ["--log-level", "warn", "probe"]).failsWith
      shown) :
    (SealfsCli.Probe env w).1 = .returned (some shown) := by
  obtain ⟨text, he, ⟨hne, rfl⟩ | ⟨heq, ps, hps, hs, rfl⟩⟩ := hf
  · simp [SealfsCli.Probe, execCombinedOutput, he, hne]
  · simp [SealfsCli.Probe, execCombinedOutput, he, heq, hps, hs]

/-- The text of a wrapped failure contains the command name, every argument
and the output. -/
theorem wrapped_text_has_context (label shown middle output : String) (args : List String)
    (hmid : hasSub middle "sealfs-client") :
    hasSub (label ++ shown ++ middle ++ argsLogStr args ++ "\nOutput: " ++ output)
        "sealfs-client"
      ∧ (∀ a ∈ args,
          hasSub (label ++ shown ++ middle ++ argsLogStr args ++ "\nOutput: " ++ output) a)
      ∧ hasSub (label ++ shown ++ middle ++ argsLogStr args ++ "\nOutput: " ++ output) output :=
  ⟨hasSub_left _ (hasSub_left _ (hasSub_left _ (hasSub_right _ hmid))),
    fun _ ha => hasSub_left _ (hasSub_left _ (hasSub_right _ (hasSub_argsLogStr ha))),
    hasSub_right _ (hasSub_refl _)⟩

/-- C3: for `SealfsCli` and `fakeCli`, `Mount` with an empty `volumeName` or an
empty `mountPath` and `Umount` with an empty `mountPath` return an error of the
`InvalidArgument` category and leave the world as it was: no subprocess call,
no directory made or removed. -/
theorem empty_identifier_invalid_argument (env : Env) (volumeName mountPath : String)
    (options : List String) (w : World) :
    (volumeName = "" ∨ mountPath = "" →
      (∃ e, SealfsCli.Mount env volumeName mountPath options w = (.returned (some e), w)
          ∧ e.code = Code.InvalidArgument) ∧
      (∃ e, fakeCli.Mount volumeName mountPath options w = (.returned (some e), w)
          ∧ e.code = Code.InvalidArgument)) ∧
    (∃ e, SealfsCli.Umount env "" w = (.returned (some e), w)
        ∧ e.code = Code.InvalidArgument) ∧
    (∃ e, fakeCli.Umount "" w = (.returned (some e), w) ∧ e.code = Code.InvalidArgument) := by
  refine ⟨?_, ⟨.status .InvalidArgument "Target path not provided", by simp [SealfsCli.Umount], rfl⟩,
    ⟨.status .InvalidArgument "Target path not provided", by simp [fakeCli.Umount], rfl⟩⟩
  intro h
  by_cases hv : volumeName = ""
  · exact ⟨⟨.status .InvalidArgument "Volume ID missing in request",
        by simp [SealfsCli.Mount, hv], rfl⟩,
      ⟨.status .InvalidArgument "Volume ID missing in request", by simp [fakeCli.Mount, hv], rfl⟩⟩
  · have hp : mountPath = "" := h.resolve_left hv
    exact ⟨⟨.status .InvalidArgument "Target path not provided",
        by simp [SealfsCli.Mount, hv, hp], rfl⟩,
      ⟨.status .InvalidArgument "Target path not provided", by simp [fakeCli.Mount, hv, hp], rfl⟩⟩

theorem empty_identifier_invalid_argument_witness :
    (∃ e, SealfsCli.Mount (constEnv okResult) "vol1" "" ["ro"] emptyWorld
        = (.returned (some e), emptyWorld) ∧ e.code = Code.InvalidArgument) ∧
    (∃ e, fakeCli.Mount "vol1" "" ["ro"] emptyWorld = (.returned (some e), emptyWorld)
        ∧ e.code = Code.InvalidArgument) :=
  (empty_identifier_invalid_argument (constEnv okResult) "vol1" "" ["ro"] emptyWorld).1
    (Or.inr rfl)

/-- C4 as stated fails: the error `Delete("")` returns is not of the
`InvalidArgument` category, for `SealfsCli` and for `fakeCli`. -/
theorem Delete_empty_not_invalid_argument :
    (¬ ∃ e, (SealfsCli.Delete "" emptyWorld).1 = .returned (some e)
        ∧ e.code = Code.InvalidArgument) ∧
    (¬ ∃ e, (fakeCli.Delete "" emptyWorld).1 = .returned (some e)
        ∧ e.code = Code.InvalidArgument) := by
  constructor <;>
  · rintro ⟨e, he, hc⟩
    simp [SealfsCli.Delete, fakeCli.Delete] at he
    subst he
    simp [GoError.code] at hc

/-- C4 amended: for `SealfsCli` and `fakeCli`, `Delete("")` returns the plain
error `missing required volume name`, whose category is `Unknown`, and
`Delete(name)` for a non-empty name returns nil; in both cases the world is
left as it was. -/
theorem Delete_plain_error (name : String) (w : World) :
    (SealfsCli.Delete "" w = (.returned (some (.errorf "missing required volume name")), w)
      ∧ fakeCli.Delete "" w = (.returned (some (.errorf "missing required volume name")), w)
      ∧ (GoError.errorf "missing required volume name").code = Code.Unknown) ∧
    (name ≠ "" →
      SealfsCli.Delete name w = (.returned none, w)
      ∧ fakeCli.Delete name w = (.returned none, w)) := by
  refine ⟨⟨by simp [SealfsCli.Delete], by simp [fakeCli.Delete], rfl⟩, ?_⟩
  intro h
  exact ⟨by simp [SealfsCli.Delete, h], by simp [fakeCli.Delete, h]⟩

theorem Delete_plain_error_witness :
    SealfsCli.Delete "vol1" emptyWorld = (.returned none, emptyWorld)
      ∧ fakeCli.Delete "vol1" emptyWorld = (.returned none, emptyWorld) :=
  (Delete_plain_error "vol1" emptyWorld).2 (by decide)

/-- C8: `fakeCli.Create` always succeeds and `SealfsCli.Create` succeeds whenever
its subprocess reports no error; the volume returned has `id` and `uuid` equal
to `volumeName`, the given `size` and `onDelete` equal to `onDeletePolicy`, for
every `volumeName`, the empty one included. -/
theorem Create_returns_volume (env : Env) (volumeName server : String) (size : Int)
    (onDeletePolicy : String) (w : World) :
    (fakeCli.Create volumeName server size onDeletePolicy w).1
        = .returned (some { id := volumeName, size := size, uuid := volumeName,
                            onDelete := onDeletePolicy }, none) ∧
    ((env.combinedOutput "sealfs-client"
          ["--log-level", "warn", "create", "-m", server, volumeName, "100000"]).err = none →
      (SealfsCli.Create env volumeName server size onDeletePolicy w).1
        = .returned (some { id := volumeName, size := size, uuid := volumeName,
                            onDelete := onDeletePolicy }, none)) := by
  refine ⟨rfl, ?_⟩
  intro h
  simp [SealfsCli.Create, execCombinedOutput, h]

theorem Create_returns_volume_witness :
    (SealfsCli.Create (constEnv okResult) "vol1" "server1" 100 "retain" emptyWorld).1
      = .returned (some { id := "vol1", size := 100, uuid := "vol1", onDelete := "retain" },
          none) :=
  (Create_returns_volume (constEnv okResult) "vol1" "server1" 100 "retain" emptyWorld).2 rfl

/-- C10: the subprocess invocations an operation of `SealfsCli` adds to the
trace. Each is the command `sealfs-client` with `--log-level warn` followed by
`mount mountPath volumeName` (one invocation, made when both names are
non-empty and the directory could be made), `umount mountPath` (one invocation
when `mountPath` is non-empty), `create -m server volumeName 100000` (always
one) and `probe` (always one). `size`, `onDeletePolicy` and `options` do not
occur in them. -/
theorem invocation_arguments (env : Env) (volumeName mountPath server : String)
    (options : List String) (size : Int) (onDeletePolicy : String) (w : World) :
    commands (SealfsCli.Mount env volumeName mountPath options w).2.trace
      = commands w.trace ++
          (if volumeName ≠ "" ∧ mountPath ≠ "" ∧ (env.mkdirAll mountPath 0o750).isNone then
            [("sealfs-client", ["--log-level", "warn"] ++ ["mount", mountPath, volumeName])]
          else []) ∧
    commands (SealfsCli.Umount env mountPath w).2.trace
      = commands w.trace ++
          (if mountPath ≠ "" then
            [("sealfs-client", ["--log-level", "warn"] ++ ["umount", mountPath])]
          else []) ∧
    commands (SealfsCli.Create env volumeName server size onDeletePolicy w).2.trace
      = commands w.trace ++
          [("sealfs-client",
            ["--log-level", "warn"] ++ ["create", "-m", server, volumeName, "100000"])] ∧
    commands (SealfsCli.Probe env w).2.trace
      = commands w.trace ++ [("sealfs-client", ["--log-level", "warn"] ++ ["probe"])] := by
  refine ⟨?_, ?_, ?_, ?_⟩
  · by_cases hv : volumeName = ""
    · simp [SealfsCli.Mount, hv]
    by_cases hp : mountPath = ""
    · simp [SealfsCli.Mount, hv, hp]
    cases hm : env.mkdirAll mountPath 0o750 with
    | some en =>
        simp [SealfsCli.Mount, hv, hp, osMkdirAll, hm, commands_append, commands]
    | none =>
        rw [Mount_world_of_mkdirAll_ok env volumeName mountPath options w hv hp hm]
        simp [hv, hp, commands_append, commands]
  · by_cases hp : mountPath = ""
    · simp [SealfsCli.Umount, hp]
    cases he : (env.combinedOutput "sealfs-client"
        ["--log-level", "warn", "umount", mountPath]).err with
    | some text =>
        rw [Umount_world_of_err env mountPath w hp text he]
        simp [hp, commands_append, commands]
    | none =>
        rw [Umount_world_of_ok env mountPath w hp he]
        simp only [osRemoveAll]
        split <;> simp [hp, commands_append, commands]
  · rw [Create_world]
    simp [commands_append, commands]
  · rw [Probe_world]
    simp [commands_append, commands]

/-- C6: with both names non-empty, `Mount` first calls `os.MkdirAll(mountPath, 0750)`;
if that fails `Mount` returns an error and the trace ends there (no subprocess);
if it succeeds the subprocess call follows, and whatever the subprocess reports
`mountPath` exists afterwards and every directory that existed still does. -/
theorem Mount_makes_directory_first (env : Env) (volumeName mountPath : String)
    (options : List String) (w : World) (hv : volumeName ≠ "") (hp : mountPath ≠ "") :
    (∀ e n, env.mkdirAll mountPath 0o750 = some (e, n) →
      (SealfsCli.Mount env volumeName mountPath options w).1
          = .returned (some (.errorf ("failed to create mount path " ++ mountPath ++ ": " ++ e)))
        ∧ (SealfsCli.Mount env volumeName mountPath options w).2.trace
          = w.trace ++ [Event.mkdirAll mountPath 0o750]) ∧
    (env.mkdirAll mountPath 0o750 = none →
      (SealfsCli.Mount env volumeName mountPath options w).2.trace
          = w.trace ++ [Event.mkdirAll mountPath 0o750,
              Event.combinedOutput "sealfs-client"
                ["--log-level", "warn", "mount", mountPath, volumeName]]
        ∧ mountPath ∈ (SealfsCli.Mount env volumeName mountPath options w).2.dirs
        ∧ ∀ d ∈ w.dirs, d ∈ (SealfsCli.Mount env volumeName mountPath options w).2.dirs) := by
  constructor
  · intro e n hm
    simp [SealfsCli.Mount, hv, hp, osMkdirAll, hm]
  · intro hm
    rw [Mount_world_of_mkdirAll_ok env volumeName mountPath options w hv hp hm]
    refine ⟨rfl, by simp, ?_⟩
    intro d hd
    simp [hd]

theorem Mount_makes_directory_first_witness :
    ((SealfsCli.Mount noMkdirEnv "vol1" "/mnt/x" [] emptyWorld).1
        = .returned (some (.errorf ("failed to create mount path " ++ "/mnt/x" ++ ": "
            ++ "permission denied")))
      ∧ (SealfsCli.Mount noMkdirEnv "vol1" "/mnt/x" [] emptyWorld).2.trace
        = emptyWorld.trace ++ [Event.mkdirAll "/mnt/x" 0o750]) ∧
    ((SealfsCli.Mount (constEnv (exit1Result "boom")) "vol1" "/mnt/x" [] emptyWorld).2.trace
        = emptyWorld.trace ++ [Event.mkdirAll "/mnt/x" 0o750,
            Event.combinedOutput "sealfs-client" ["--log-level", "warn", "mount", "/mnt/x", "vol1"]]
      ∧ "/mnt/x" ∈ (SealfsCli.Mount (constEnv (exit1Result "boom")) "vol1" "/mnt/x" []
          emptyWorld).2.dirs
      ∧ ∀ d ∈ emptyWorld.dirs,
          d ∈ (SealfsCli.Mount (constEnv (exit1Result "boom")) "vol1" "/mnt/x" []
            emptyWorld).2.dirs) :=
  ⟨(Mount_makes_directory_first noMkdirEnv "vol1" "/mnt/x" [] emptyWorld
      (by decide) (by decide)).1 "permission denied" 0 rfl,
    (Mount_makes_directory_first (constEnv (exit1Result "boom")) "vol1" "/mnt/x" [] emptyWorld
      (by decide) (by decide)).2 rfl⟩

/-- C7: with `mountPath` non-empty, if the subprocess of `Umount` fails (the
quirk taken into account) `Umount` returns an error, the directories are as
before and the trace gains the subprocess call only: `os.RemoveAll` is not
called. -/
theorem Umount_failure_removes_nothing (env : Env) (mountPath : String) (w : World)
    (shown : GoError) (hp : mountPath ≠ "")
    (hf : (env.combinedOutput "sealfs-client"
      ["--log-level", "warn", "umount", mountPath]).failsWith shown) :
    (∃ e, (SealfsCli.Umount env mountPath w).1 = .returned (some e))
      ∧ (SealfsCli.Umount env mountPath w).2.dirs = w.dirs
      ∧ (SealfsCli.Umount env mountPath w).2.trace
          = w.trace ++ [Event.combinedOutput "sealfs-client"
              ["--log-level", "warn", "umount", mountPath]] := by
  obtain ⟨text, he, hcase⟩ := hf
  rw [Umount_world_of_err env mountPath w hp text he]
  refine ⟨?_, rfl, rfl⟩
  rcases hcase with ⟨hne, _⟩ | ⟨heq, ps, hps, hs, _⟩
  · exact ⟨_, by simp [SealfsCli.Umount, hp, execCombinedOutput, he, hne]; rfl⟩
  · exact ⟨_, by simp [SealfsCli.Umount, hp, execCombinedOutput, he, heq, hps, hs]; rfl⟩

theorem Umount_failure_removes_nothing_witness :
    (∃ e, (SealfsCli.Umount (constEnv (exit1Result "busy")) "/mnt/x"
        { dirs := ["/mnt/x"], trace := [] }).1 = .returned (some e))
      ∧ (SealfsCli.Umount (constEnv (exit1Result "busy")) "/mnt/x"
          { dirs := ["/mnt/x"], trace := [] }).2.dirs = ["/mnt/x"]
      ∧ (SealfsCli.Umount (constEnv (exit1Result "busy")) "/mnt/x"
          { dirs := ["/mnt/x"], trace := [] }).2.trace
          = [] ++ [Event.combinedOutput "sealfs-client"
              ["--log-level", "warn", "umount", "/mnt/x"]] :=
  Umount_failure_removes_nothing (constEnv (exit1Result "busy")) "/mnt/x"
    { dirs := ["/mnt/x"], trace := [] } (.cmdErr "exit status 1") (by decide)
    ⟨"exit status 1", rfl, Or.inl ⟨by decide, rfl⟩⟩

/-- C5: when the subprocess call fails, the quirk taken into account, every
operation returns a non-nil error (and `Create` no volume). `Mount`, `Umount`
and `Create` return a formatted error and `Probe` the error itself; the error
they show is `shown`, which by `ExecResult.failsWith` is the exit error of the
captured process state when the call reported `wait: no child processes`. -/
theorem failure_is_returned (env : Env) (volumeName mountPath server : String)
    (options : List String) (size : Int) (onDeletePolicy : String) (w : World)
    (shown : GoError) :
    (volumeName ≠ "" → mountPath ≠ "" → env.mkdirAll mountPath 0o750 = none →
      (env.combinedOutput "sealfs-client"
        ["--log-level", "warn", "mount", mountPath, volumeName]).failsWith shown →
      (SealfsCli.Mount env volumeName mountPath options w).1
        = .returned (some (.errorf ("mount failed: " ++ shown.Error
            ++ "\nMounting command: sealfs-client\nMounting arguments: "
            ++ argsLogStr ["--log-level", "warn", "mount", mountPath, volumeName]
            ++ "\nOutput: "
            ++ (env.combinedOutput "sealfs-client"
                ["--log-level", "warn", "mount", mountPath, volumeName]).output)))) ∧
    (mountPath ≠ "" →
      (env.combinedOutput "sealfs-client"
        ["--log-level", "warn", "umount", mountPath]).failsWith shown →
      (SealfsCli.Umount env mountPath w).1
        = .returned (some (.errorf ("Umount failed: " ++ shown.Error
            ++ "\nUmounting command: sealfs-client\nUmounting arguments: "
            ++ argsLogStr ["--log-level", "warn", "umount", mountPath]
            ++ "\nOutput: "
            ++ (env.combinedOutput "sealfs-client"
                ["--log-level", "warn", "umount", mountPath]).output)))) ∧
    ((env.combinedOutput "sealfs-client"
        ["--log-level", "warn", "create", "-m", server, volumeName, "100000"]).failsWith shown →
      (SealfsCli.Create env volumeName server size onDeletePolicy w).1
        = .returned (none, some (.errorf ("mount failed: " ++ shown.Error
            ++ "\nMounting command: sealfs-client\nMounting arguments: "
            ++ argsLogStr ["--log-level", "warn", "create", "-m", server, volumeName, "100000"]
            ++ "\nOutput: "
            ++ (env.combinedOutput "sealfs-client"
                ["--log-level", "warn", "create", "-m", server, volumeName,
                  "100000"]).output)))) ∧
    ((env.combinedOutput "sealfs-client" ["--log-level", "warn", "probe"]).failsWith shown →
      (SealfsCli.Probe env w).1 = .returned (some shown)) := by
  exact ⟨Mount_of_failsWith env volumeName mountPath options w shown,
    Umount_of_failsWith env mountPath w shown,
    Create_of_failsWith env volumeName server size onDeletePolicy w shown,
    Probe_of_failsWith env w shown⟩

theorem failure_is_returned_witness :
    (SealfsCli.Mount (constEnv (exit1Result "boom")) "vol1" "/mnt/x" [] emptyWorld).1
        = .returned (some (.errorf ("mount failed: exit status 1"
            ++ "\nMounting command: sealfs-client"
            ++ "\nMounting arguments:  --log-level warn mount /mnt/x vol1"
            ++ "\nOutput: boom"))) ∧
    (SealfsCli.Umount (constEnv (exit1Result "boom")) "/mnt/x" emptyWorld).1
        = .returned (some (.errorf ("Umount failed: exit status 1"
            ++ "\nUmounting command: sealfs-client"
            ++ "\nUmounting arguments:  --log-level warn umount /mnt/x"
            ++ "\nOutput: boom"))) ∧
    (SealfsCli.Create (constEnv (exit1Result "boom")) "vol1" "server1" 100 "retain"
          emptyWorld).1
        = .returned (none, some (.errorf ("mount failed: exit status 1"
            ++ "\nMounting command: sealfs-client"
            ++ "\nMounting arguments:  --log-level warn create -m server1 vol1 100000"
            ++ "\nOutput: boom"))) ∧
    (SealfsCli.Probe (constEnv (exit1Result "boom")) emptyWorld).1
        = .returned (some (.cmdErr "exit status 1")) :=
  ⟨(failure_is_returned (constEnv (exit1Result "boom")) "vol1" "/mnt/x" "server1" []
        100 "retain" emptyWorld (.cmdErr "exit status 1")).1
      (by decide) (by decide) rfl
      ⟨"exit status 1", rfl, Or.inl ⟨by decide, rfl⟩⟩,
    (failure_is_returned (constEnv (exit1Result "boom")) "vol1" "/mnt/x" "server1" []
        100 "retain" emptyWorld (.cmdErr "exit status 1")).2.1
      (by decide) ⟨"exit status 1", rfl, Or.inl ⟨by decide, rfl⟩⟩,
    (failure_is_returned (constEnv (exit1Result "boom")) "vol1" "/mnt/x" "server1" []
        100 "retain" emptyWorld (.cmdErr "exit status 1")).2.2.1
      ⟨"exit status 1", rfl, Or.inl ⟨by decide, rfl⟩⟩,
    (failure_is_returned (constEnv (exit1Result "boom")) "vol1" "/mnt/x" "server1" []
        100 "retain" emptyWorld (.cmdErr "exit status 1")).2.2.2
      ⟨"exit status 1", rfl, Or.inl ⟨by decide, rfl⟩⟩⟩

/-- Whenever the subprocess call reports `wait: no child processes` and the
answer is one `os/exec` can give, every operation panics at
`command.ProcessState.Success()`: none returns. -/
theorem quirk_text_panics (env : Env) (volumeName mountPath server : String)
    (options : List String) (size : Int) (onDeletePolicy : String) (w : World) :
    (volumeName ≠ "" → mountPath ≠ "" → env.mkdirAll mountPath 0o750 = none →
      (env.combinedOutput "sealfs-client"
        ["--log-level", "warn", "mount", mountPath, volumeName]).fromOsExec →
      (env.combinedOutput "sealfs-client"
        ["--log-level", "warn", "mount", mountPath, volumeName]).err
          = some "wait: no child processes" →
      (SealfsCli.Mount env volumeName mountPath options w).1 = .panicked) ∧
    (mountPath ≠ "" →
      (env.combinedOutput "sealfs-client"
        ["--log-level", "warn", "umount", mountPath]).fromOsExec →
      (env.combinedOutput "sealfs-client" ["--log-level", "warn", "umount", mountPath]).err
          = some "wait: no child processes" →
      (SealfsCli.Umount env mountPath w).1 = .panicked) ∧
    ((env.combinedOutput "sealfs-client"
        ["--log-level", "warn", "create", "-m", server, volumeName, "100000"]).fromOsExec →
      (env.combinedOutput "sealfs-client"
        ["--log-level", "warn", "create", "-m", server, volumeName, "100000"]).err
          = some "wait: no child processes" →
      (SealfsCli.Create env volumeName server size onDeletePolicy w).1 = .panicked) ∧
    ((env.combinedOutput "sealfs-client" ["--log-level", "warn", "probe"]).fromOsExec →
      (env.combinedOutput "sealfs-client" ["--log-level", "warn", "probe"]).err
          = some "wait: no child processes" →
      (SealfsCli.Probe env w).1 = .panicked) := by
  refine ⟨?_, ?_, ?_, ?_⟩
  · intro hv hp hm hreal he
    simp [SealfsCli.Mount, hv, hp, osMkdirAll, hm, execCombinedOutput, he, hreal he]
  · intro hp hreal he
    simp [SealfsCli.Umount, hp, execCombinedOutput, he, hreal he]
  · intro hreal he
    simp [SealfsCli.Create, execCombinedOutput, he, hreal he]
  · intro hreal he
    simp [SealfsCli.Probe, execCombinedOutput, he, hreal he]

/-- C1, at the input where the code departs from it: when reaping
`sealfs-client` fails with `ECHILD`, so that `CombinedOutput` returns the error
`wait: no child processes` and captures no process state, each of `Mount`,
`Umount`, `Create` and `Probe` panics at `command.ProcessState.Success()`
instead of returning success. -/
theorem lost_wait_panics (output : String) (w : World) :
    (waitLostResult output).fromOsExec
      ∧ (SealfsCli.Mount (constEnv (waitLostResult output)) "vol1" "/mnt/x" [] w).1
          = .panicked
      ∧ (SealfsCli.Umount (constEnv (waitLostResult output)) "/mnt/x" w).1 = .panicked
      ∧ (SealfsCli.Create (constEnv (waitLostResult output)) "vol1" "server1" 100 "retain"
          w).1 = .panicked
      ∧ (SealfsCli.Probe (constEnv (waitLostResult output)) w).1 = .panicked := by
  refine ⟨fun _ => rfl, ?_, ?_, ?_, ?_⟩
  · simp [SealfsCli.Mount, osMkdirAll, execCombinedOutput, constEnv, waitLostResult]
  · simp [SealfsCli.Umount, execCombinedOutput, constEnv, waitLostResult]
  · simp [SealfsCli.Create, execCombinedOutput, constEnv, waitLostResult]
  · simp [SealfsCli.Probe, execCombinedOutput, constEnv, waitLostResult]

/-- C2: for every `mountPath` and every answer `os/exec` can give, whenever
`Umount` returns nil, `os.RemoveAll(mountPath)` was called after the subprocess
call and succeeded: the trace gained exactly these two calls, the directories
left are those not at or below `mountPath`, and `mountPath` is not among them.
There is no other path to a nil return: on `wait: no child processes` no
process state is captured and `Umount` does not return. -/
theorem Umount_success_has_removed (env : Env) (mountPath : String) (w : World)
    (hreal : (env.combinedOutput "sealfs-client"
      ["--log-level", "warn", "umount", mountPath]).fromOsExec)
    (hret : (SealfsCli.Umount env mountPath w).1 = .returned none) :
    (SealfsCli.Umount env mountPath w).2.trace
        = w.trace ++ [Event.combinedOutput "sealfs-client"
            ["--log-level", "warn", "umount", mountPath], Event.removeAll mountPath]
      ∧ (SealfsCli.Umount env mountPath w).2.dirs
        = w.dirs.filter (fun d => !below mountPath d)
      ∧ (∀ d ∈ (SealfsCli.Umount env mountPath w).2.dirs, below mountPath d = false)
      ∧ mountPath ∉ (SealfsCli.Umount env mountPath w).2.dirs := by
  rw [Umount_world_of_nil env mountPath w hreal hret]
  refine ⟨rfl, rfl, ?_, ?_⟩
  · intro d hd
    simpa using (List.mem_filter.mp hd).2
  · intro hd
    have h := (List.mem_filter.mp hd).2
    simp [below_self] at h

theorem Umount_success_has_removed_witness :
    (SealfsCli.Umount (constEnv okResult) "/mnt/x/"
          { dirs := ["/mnt/x", "/mnt/x/a", "/mnt/xy", "/mnt"], trace := [] }).2.trace
        = [] ++ [Event.combinedOutput "sealfs-client"
            ["--log-level", "warn", "umount", "/mnt/x/"], Event.removeAll "/mnt/x/"]
      ∧ (SealfsCli.Umount (constEnv okResult) "/mnt/x/"
          { dirs := ["/mnt/x", "/mnt/x/a", "/mnt/xy", "/mnt"], trace := [] }).2.dirs
        = ["/mnt/xy", "/mnt"]
      ∧ (∀ d ∈ (SealfsCli.Umount (constEnv okResult) "/mnt/x/"
          { dirs := ["/mnt/x", "/mnt/x/a", "/mnt/xy", "/mnt"], trace := [] }).2.dirs,
          below "/mnt/x/" d = false)
      ∧ "/mnt/x/" ∉ (SealfsCli.Umount (constEnv okResult) "/mnt/x/"
          { dirs := ["/mnt/x", "/mnt/x/a", "/mnt/xy", "/mnt"], trace := [] }).2.dirs :=
  Umount_success_has_removed (constEnv okResult) "/mnt/x/"
    { dirs := ["/mnt/x", "/mnt/x/a", "/mnt/xy", "/mnt"], trace := [] }
    (fun h => nomatch h) rfl

/-- C9 as stated fails for `Probe`: when `sealfs-client probe` exits with status
1 and prints `boom`, the error `Probe` returns is the subprocess error itself,
and its text `exit status 1` contains neither the command name, nor the
arguments `--log-level` and `probe`, nor the output. -/
theorem Probe_error_lacks_context :
    (exit1Result "boom").failsWith (.cmdErr "exit status 1")
      ∧ (SealfsCli.Probe (constEnv (exit1Result "boom")) emptyWorld).1
          = .returned (some (.cmdErr "exit status 1"))
      ∧ ¬ hasSub (GoError.cmdErr "exit status 1").Error "sealfs-client"
      ∧ ¬ hasSub (GoError.cmdErr "exit status 1").Error "--log-level"
      ∧ ¬ hasSub (GoError.cmdErr "exit status 1").Error "probe"
      ∧ ¬ hasSub (GoError.cmdErr "exit status 1").Error "boom" := by
  refine ⟨⟨"exit status 1", rfl, Or.inl ⟨by decide, rfl⟩⟩, rfl, ?_, ?_, ?_, ?_⟩ <;> decide

/-- C9 amended: when the subprocess fails, the quirk taken into account, the
error `Mount`, `Umount` and `Create` return has a text that contains the label
`mount failed` (`Mount`) or `Umount failed` (`Umount`), the command name
`sealfs-client`, every argument of the invocation and the captured output;
`Probe` returns the error of the subprocess itself, unwrapped. -/
theorem failure_text_has_context (env : Env) (volumeName mountPath server : String)
    (options : List String) (size : Int) (onDeletePolicy : String) (w : World)
    (shown : GoError) :
    (volumeName ≠ "" → mountPath ≠ "" → env.mkdirAll mountPath 0o750 = none →
      (env.combinedOutput "sealfs-client"
        ["--log-level", "warn", "mount", mountPath, volumeName]).failsWith shown →
      ∃ e, (SealfsCli.Mount env volumeName mountPath options w).1 = .returned (some e)
        ∧ hasSub e.Error "mount failed"
        ∧ hasSub e.Error "sealfs-client"
        ∧ (∀ a ∈ ["--log-level", "warn", "mount", mountPath, volumeName], hasSub e.Error a)
        ∧ hasSub e.Error (env.combinedOutput "sealfs-client"
            ["--log-level", "warn", "mount", mountPath, volumeName]).output) ∧
    (mountPath ≠ "" →
      (env.combinedOutput "sealfs-client"
        ["--log-level", "warn", "umount", mountPath]).failsWith shown →
      ∃ e, (SealfsCli.Umount env mountPath w).1 = .returned (some e)
        ∧ hasSub e.Error "Umount failed"
        ∧ hasSub e.Error "sealfs-client"
        ∧ (∀ a ∈ ["--log-level", "warn", "umount", mountPath], hasSub e.Error a)
        ∧ hasSub e.Error (env.combinedOutput "sealfs-client"
            ["--log-level", "warn", "umount", mountPath]).output) ∧
    ((env.combinedOutput "sealfs-client"
        ["--log-level", "warn", "create", "-m", server, volumeName, "100000"]).failsWith shown →
      ∃ e, (SealfsCli.Create env volumeName server size onDeletePolicy w).1
          = .returned (none, some e)
        ∧ hasSub e.Error "sealfs-client"
        ∧ (∀ a ∈ ["--log-level", "warn", "create", "-m", server, volumeName, "100000"],
            hasSub e.Error a)
        ∧ hasSub e.Error (env.combinedOutput "sealfs-client"
            ["--log-level", "warn", "create", "-m", server, volumeName, "100000"]).output) ∧
    ((env.combinedOutput "sealfs-client" ["--log-level", "warn", "probe"]).failsWith shown →
      (SealfsCli.Probe env w).1 = .returned (some shown)) := by
  refine ⟨?_, ?_, ?_, Probe_of_failsWith env w shown⟩
  · intro hv hp hm hf
    obtain ⟨h1, h2, h3⟩ := wrapped_text_has_context "mount failed: " shown.Error
      "\nMounting command: sealfs-client\nMounting arguments: "
      (env.combinedOutput "sealfs-client"
        ["--log-level", "warn", "mount", mountPath, volumeName]).output
      ["--log-level", "warn", "mount", mountPath, volumeName] (by decide)
    exact ⟨_, Mount_of_failsWith env volumeName mountPath options w shown hv hp hm hf,
      hasSub_left _ (hasSub_left _ (hasSub_left _ (hasSub_left _ (hasSub_left _
        (by decide))))), h1, h2, h3⟩
  · intro hp hf
    obtain ⟨h1, h2, h3⟩ := wrapped_text_has_context "Umount failed: " shown.Error
      "\nUmounting command: sealfs-client\nUmounting arguments: "
      (env.combinedOutput "sealfs-client" ["--log-level", "warn", "umount", mountPath]).output
      ["--log-level", "warn", "umount", mountPath] (by decide)
    exact ⟨_, Umount_of_failsWith env mountPath w shown hp hf,
      hasSub_left _ (hasSub_left _ (hasSub_left _ (hasSub_left _ (hasSub_left _
        (by decide))))), h1, h2, h3⟩
  · intro hf
    obtain ⟨h1, h2, h3⟩ := wrapped_text_has_context "mount failed: " shown.Error
      "\nMounting command: sealfs-client\nMounting arguments: "
      (env.combinedOutput "sealfs-client"
        ["--log-level", "warn", "create", "-m", server, volumeName, "100000"]).output
      ["--log-level", "warn", "create", "-m", server, volumeName, "100000"] (by decide)
    exact ⟨_, Create_of_failsWith env volumeName server size onDeletePolicy w shown hf,
      h1, h2, h3⟩

theorem failure_text_has_context_witness :
    (∃ e, (SealfsCli.Mount (constEnv (exit1Result "boom")) "vol1" "/mnt/x" [] emptyWorld).1
          = .returned (some e)
        ∧ hasSub e.Error "mount failed"
        ∧ hasSub e.Error "sealfs-client"
        ∧ (∀ a ∈ ["--log-level", "warn", "mount", "/mnt/x", "vol1"], hasSub e.Error a)
        ∧ hasSub e.Error "boom") ∧
    (∃ e, (SealfsCli.Umount (constEnv (exit1Result "boom")) "/mnt/x" emptyWorld).1
          = .returned (some e)
        ∧ hasSub e.Error "Umount failed"
        ∧ hasSub e.Error "sealfs-client"
        ∧ (∀ a ∈ ["--log-level", "warn", "umount", "/mnt/x"], hasSub e.Error a)
        ∧ hasSub e.Error "boom") ∧
    (∃ e, (SealfsCli.Create (constEnv (exit1Result "boom")) "vol1" "server1" 100 "retain"
            emptyWorld).1 = .returned (none, some e)
        ∧ hasSub e.Error "sealfs-client"
        ∧ (∀ a ∈ ["--log-level", "warn", "create", "-m", "server1", "vol1", "100000"],
            hasSub e.Error a)
        ∧ hasSub e.Error "boom") ∧
    (SealfsCli.Probe (constEnv (exit1Result "boom")) emptyWorld).1
      = .returned (some (.cmdErr "exit status 1")) :=
  ⟨(failure_text_has_context (constEnv (exit1Result "boom")) "vol1" "/mnt/x" "server1" []
        100 "retain" emptyWorld (.cmdErr "exit status 1")).1
      (by decide) (by decide) rfl ⟨"exit status 1", rfl, Or.inl ⟨by decide, rfl⟩⟩,
    (failure_text_has_context (constEnv (exit1Result "boom")) "vol1" "/mnt/x" "server1" []
        100 "retain" emptyWorld (.cmdErr "exit status 1")).2.1
      (by decide) ⟨"exit status 1", rfl, Or.inl ⟨by decide, rfl⟩⟩,
    (failure_text_has_context (constEnv (exit1Result "boom")) "vol1" "/mnt/x" "server1" []
        100 "retain" emptyWorld (.cmdErr "exit status 1")).2.2.1
      ⟨"exit status 1", rfl, Or.inl ⟨by decide, rfl⟩⟩,
    (failure_text_has_context (constEnv (exit1Result "boom")) "vol1" "/mnt/x" "server1" []
        100 "retain" emptyWorld (.cmdErr "exit status 1")).2.2.2
      ⟨"exit status 1", rfl, Or.inl ⟨by decide, rfl⟩⟩⟩

end Sealfs
